import Mathlib

set_option maxRecDepth 4000

/-! Shallow embedding of cryptography/x509/base.py: the X.509 extension and
name data model, the certificate and CSR builder protocol, and the
key-identifier derivation.  Python exceptions are modelled by `Except PyErr`,
Python `int` by `Int`/`Nat`, `datetime.datetime` by a seven-field record with
lexicographic comparison, and `bytes` by `List Nat`. -/

/-- Python exception kinds raised by the modelled code: TypeError and ValueError. -/
inductive PyErr
  | typeError (msg : String)
  | valueError (msg : String)
deriving DecidableEq

/-- True when an `Except` computation raised an error. -/
def exErr {ε α : Type} : Except ε α → Bool
  | .error _ => true
  | .ok _ => false

/-- True when an `Except` computation returned normally. -/
def exOk {ε α : Type} : Except ε α → Bool
  | .error _ => false
  | .ok _ => true

/-- ObjectIdentifier: immutable dotted-integer sequence, compared by its
dotted string (cryptography.x509.oid.ObjectIdentifier, an external leaf). -/
structure ObjectIdentifier where
  dotted_string : String
deriving DecidableEq

/-- Modelled from the spec: the OID class constants live in
cryptography/x509/oid.py, which is not part of the analysed file; each
extension variant exposes its own fixed OID as a class-level constant.  The
dotted strings are the RFC 5280 values the constants name. -/
def ExtensionOID.EXTENDED_KEY_USAGE : ObjectIdentifier := ⟨"2.5.29.37"⟩

def ExtensionOID.OCSP_NO_CHECK : ObjectIdentifier := ⟨"1.3.6.1.5.5.7.48.1.5"⟩

def ExtensionOID.BASIC_CONSTRAINTS : ObjectIdentifier := ⟨"2.5.29.19"⟩

def ExtensionOID.KEY_USAGE : ObjectIdentifier := ⟨"2.5.29.15"⟩

def ExtensionOID.AUTHORITY_INFORMATION_ACCESS : ObjectIdentifier := ⟨"1.3.6.1.5.5.7.1.1"⟩

def ExtensionOID.CERTIFICATE_POLICIES : ObjectIdentifier := ⟨"2.5.29.32"⟩

def ExtensionOID.SUBJECT_KEY_IDENTIFIER : ObjectIdentifier := ⟨"2.5.29.14"⟩

def ExtensionOID.NAME_CONSTRAINTS : ObjectIdentifier := ⟨"2.5.29.30"⟩

def ExtensionOID.CRL_DISTRIBUTION_POINTS : ObjectIdentifier := ⟨"2.5.29.31"⟩

def ExtensionOID.INHIBIT_ANY_POLICY : ObjectIdentifier := ⟨"2.5.29.54"⟩

def ExtensionOID.SUBJECT_ALTERNATIVE_NAME : ObjectIdentifier := ⟨"2.5.29.17"⟩

def ExtensionOID.ISSUER_ALTERNATIVE_NAME : ObjectIdentifier := ⟨"2.5.29.18"⟩

def ExtensionOID.AUTHORITY_KEY_IDENTIFIER : ObjectIdentifier := ⟨"2.5.29.35"⟩

/-- OID_OCSP, from cryptography/x509/oid.py (external constant). -/
def OID_OCSP : ObjectIdentifier := ⟨"1.3.6.1.5.5.7.48.1"⟩

/-- OID_CA_ISSUERS, from cryptography/x509/oid.py (external constant). -/
def OID_CA_ISSUERS : ObjectIdentifier := ⟨"1.3.6.1.5.5.7.48.2"⟩

/-- Distinguished name (cryptography.x509.name.Name): an external opaque
collaborator, modelled as a list of attribute strings compared structurally. -/
structure Name where
  rdns : List String
deriving DecidableEq

/-- The Python ipaddress values an IPAddress general name may wrap: the four
classes IPv4Address, IPv6Address, IPv4Network, IPv6Network of the external
ipaddress module, carrying their numeric content. -/
inductive IPAddressValue
  | v4Address (packed : Nat)
  | v6Address (packed : Nat)
  | v4Network (address : Nat) (prefixlen : Nat)
  | v6Network (address : Nat) (prefixlen : Nat)
deriving DecidableEq

/-- The GeneralName variant family: the seven concrete classes registered
against the GeneralName interface in base.py, each carrying its stored value
fields.  (The IDNA-encoded byte forms derived for RFC822Name and URI values
are produced by external collaborators and are not part of equality.) -/
inductive GeneralName
  | OtherName (type_id : ObjectIdentifier) (value : List Nat)
  | RFC822Name (value : String)
  | DNSName (value : String)
  | DirectoryName (value : Name)
  | UniformResourceIdentifier (value : String)
  | IPAddress (value : IPAddressValue)
  | RegisteredID (value : ObjectIdentifier)
deriving DecidableEq

/-- The _GENERAL_NAMES tag table of base.py: all nine RFC 5280 GeneralName
tag numbers with their names. -/
def _GENERAL_NAMES : List (Nat × String) :=
  [(0, "otherName"), (1, "rfc822Name"), (2, "dNSName"), (3, "x400Address"),
   (4, "directoryName"), (5, "ediPartyName"), (6, "uniformResourceIdentifier"),
   (7, "iPAddress"), (8, "registeredID")]

/-- The RFC 5280 tag number of each representable GeneralName variant. -/
def GeneralName.tag : GeneralName → Nat
  | .OtherName .. => 0
  | .RFC822Name _ => 1
  | .DNSName _ => 2
  | .DirectoryName _ => 4
  | .UniformResourceIdentifier _ => 6
  | .IPAddress _ => 7
  | .RegisteredID _ => 8

/-- The _GENERAL_NAMES name of each representable GeneralName variant. -/
def GeneralName.tagName : GeneralName → String
  | .OtherName .. => "otherName"
  | .RFC822Name _ => "rfc822Name"
  | .DNSName _ => "dNSName"
  | .DirectoryName _ => "directoryName"
  | .UniformResourceIdentifier _ => "uniformResourceIdentifier"
  | .IPAddress _ => "iPAddress"
  | .RegisteredID _ => "registeredID"

/-- ReasonFlags enumeration of base.py. -/
inductive ReasonFlags
  | unspecified
  | key_compromise
  | ca_compromise
  | affiliation_changed
  | superseded
  | cessation_of_operation
  | certificate_hold
  | privilege_withdrawn
  | aa_compromise
  | remove_from_crl
deriving DecidableEq

/-- KeyUsage extension value: the nine stored boolean attributes. -/
structure KeyUsage where
  _digital_signature : Bool
  _content_commitment : Bool
  _key_encipherment : Bool
  _data_encipherment : Bool
  _key_agreement : Bool
  _key_cert_sign : Bool
  _crl_sign : Bool
  _encipher_only : Bool
  _decipher_only : Bool
deriving DecidableEq

/-- KeyUsage.__init__: raises ValueError when key_agreement is false while
encipher_only or decipher_only is true, otherwise stores all nine flags. -/
def mkKeyUsage (digital_signature content_commitment key_encipherment
    data_encipherment key_agreement key_cert_sign crl_sign
    encipher_only decipher_only : Bool) : Except PyErr KeyUsage :=
  if !key_agreement && (encipher_only || decipher_only) then
    .error (.valueError
      "encipher_only and decipher_only can only be true when key_agreement is true")
  else
    .ok ⟨digital_signature, content_commitment, key_encipherment,
      data_encipherment, key_agreement, key_cert_sign, crl_sign,
      encipher_only, decipher_only⟩

/-- BasicConstraints extension value, stored fields. -/
structure BasicConstraints where
  _ca : Bool
  _path_length : Option Int
deriving DecidableEq

/-- NameConstraints extension value, stored fields. -/
structure NameConstraints where
  _permitted_subtrees : Option (List GeneralName)
  _excluded_subtrees : Option (List GeneralName)
deriving DecidableEq

/-- NameConstraints._validate_ip_name: true when some entry is an IPAddress
general name whose value is not an IPv4Network or IPv6Network. -/
def validateIpNameFails (tree : List GeneralName) : Bool :=
  tree.any fun name =>
    match name with
    | .IPAddress v =>
      match v with
      | .v4Network .. => false
      | .v6Network .. => false
      | _ => true
    | _ => false

/-- Lifts `validateIpNameFails` to an optional subtree list (absent lists are
not validated). -/
def subtreeBad : Option (List GeneralName) → Bool
  | none => false
  | some tree => validateIpNameFails tree

/-- NameConstraints.__init__: validates IPAddress entries of each supplied
subtree list, then raises ValueError when both lists are None. -/
def mkNameConstraints (permitted_subtrees excluded_subtrees :
    Option (List GeneralName)) : Except PyErr NameConstraints :=
  if subtreeBad permitted_subtrees then
    .error (.typeError
      "IPAddress name constraints must be an IPv4Network or IPv6Network object")
  else if subtreeBad excluded_subtrees then
    .error (.typeError
      "IPAddress name constraints must be an IPv4Network or IPv6Network object")
  else if permitted_subtrees.isNone && excluded_subtrees.isNone then
    .error (.valueError
      "At least one of permitted_subtrees and excluded_subtrees must not be None")
  else
    .ok ⟨permitted_subtrees, excluded_subtrees⟩

/-- DistributionPoint value, stored fields.  A Python frozenset of
ReasonFlags is modelled by the list of its elements. -/
structure DistributionPoint where
  _full_name : Option (List GeneralName)
  _relative_name : Option Name
  _reasons : Option (List ReasonFlags)
  _crl_issuer : Option (List GeneralName)
deriving DecidableEq

/-- Python truthiness of an optional list of general names: None and the
empty list are falsy. -/
def truthyGNList : Option (List GeneralName) → Bool
  | none => false
  | some l => !l.isEmpty

/-- Python truthiness of an optional reason collection: None and the empty
frozenset are falsy. -/
def truthyReasons : Option (List ReasonFlags) → Bool
  | none => false
  | some l => !l.isEmpty

/-- Membership of a reason flag in an optional reason collection. -/
def reasonsContains : Option (List ReasonFlags) → ReasonFlags → Bool
  | none, _ => false
  | some l, r => l.contains r

/-- DistributionPoint.__init__, with each guard using Python truthiness as
the source does (`if full_name and relative_name`, `if reasons and ...`). -/
def mkDistributionPoint (full_name : Option (List GeneralName))
    (relative_name : Option Name) (reasons : Option (List ReasonFlags))
    (crl_issuer : Option (List GeneralName)) : Except PyErr DistributionPoint :=
  if truthyGNList full_name && relative_name.isSome then
    .error (.valueError
      "You cannot provide both full_name and relative_name, at least one must be None.")
  else if truthyReasons reasons &&
      (reasonsContains reasons .unspecified ||
       reasonsContains reasons .remove_from_crl) then
    .error (.valueError
      "unspecified and remove_from_crl are not valid reasons in a DistributionPoint")
  else if truthyReasons reasons && !truthyGNList crl_issuer &&
      !(truthyGNList full_name || relative_name.isSome) then
    .error (.valueError
      "You must supply crl_issuer, full_name, or relative_name when reasons is not None")
  else
    .ok ⟨full_name, relative_name, reasons, crl_issuer⟩

/-- InhibitAnyPolicy extension value, stored field. -/
structure InhibitAnyPolicy where
  _skip_certs : Int
deriving DecidableEq

/-- AccessDescription value, stored fields. -/
structure AccessDescription where
  _access_method : ObjectIdentifier
  _access_location : GeneralName
deriving DecidableEq

/-- NoticeReference value, stored fields. -/
structure NoticeReference where
  _organization : Option String
  _notice_numbers : List Int
deriving DecidableEq

/-- UserNotice value, stored fields. -/
structure UserNotice where
  _notice_reference : Option NoticeReference
  _explicit_text : Option String
deriving DecidableEq

/-- A policy qualifier is free text or a UserNotice. -/
inductive PolicyQualifier
  | text (value : String)
  | userNotice (value : UserNotice)
deriving DecidableEq

/-- PolicyInformation value, stored fields. -/
structure PolicyInformation where
  _policy_identifier : ObjectIdentifier
  _policy_qualifiers : Option (List PolicyQualifier)
deriving DecidableEq

/-- AuthorityKeyIdentifier value, stored fields. -/
structure AuthorityKeyIdentifier where
  _key_identifier : Option (List Nat)
  _authority_cert_issuer : Option (List GeneralName)
  _authority_cert_serial_number : Option Int
deriving DecidableEq

/-- The closed family of extension value classes registered against the
ExtensionType interface in base.py, each carrying its stored data. -/
inductive ExtensionType
  | extendedKeyUsage (usages : List ObjectIdentifier)
  | ocspNoCheck
  | basicConstraints (value : BasicConstraints)
  | keyUsage (value : KeyUsage)
  | authorityInformationAccess (descriptions : List AccessDescription)
  | certificatePolicies (policies : List PolicyInformation)
  | subjectKeyIdentifier (digest : List Nat)
  | nameConstraints (value : NameConstraints)
  | crlDistributionPoints (points : List DistributionPoint)
  | inhibitAnyPolicy (value : InhibitAnyPolicy)
  | subjectAlternativeName (general_names : List GeneralName)
  | issuerAlternativeName (general_names : List GeneralName)
  | authorityKeyIdentifier (value : AuthorityKeyIdentifier)
deriving DecidableEq

/-- The fixed class-level OID of each extension value class. -/
def ExtensionType.oid : ExtensionType → ObjectIdentifier
  | .extendedKeyUsage _ => ExtensionOID.EXTENDED_KEY_USAGE
  | .ocspNoCheck => ExtensionOID.OCSP_NO_CHECK
  | .basicConstraints _ => ExtensionOID.BASIC_CONSTRAINTS
  | .keyUsage _ => ExtensionOID.KEY_USAGE
  | .authorityInformationAccess _ => ExtensionOID.AUTHORITY_INFORMATION_ACCESS
  | .certificatePolicies _ => ExtensionOID.CERTIFICATE_POLICIES
  | .subjectKeyIdentifier _ => ExtensionOID.SUBJECT_KEY_IDENTIFIER
  | .nameConstraints _ => ExtensionOID.NAME_CONSTRAINTS
  | .crlDistributionPoints _ => ExtensionOID.CRL_DISTRIBUTION_POINTS
  | .inhibitAnyPolicy _ => ExtensionOID.INHIBIT_ANY_POLICY
  | .subjectAlternativeName _ => ExtensionOID.SUBJECT_ALTERNATIVE_NAME
  | .issuerAlternativeName _ => ExtensionOID.ISSUER_ALTERNATIVE_NAME
  | .authorityKeyIdentifier _ => ExtensionOID.AUTHORITY_KEY_IDENTIFIER

/-- Extension: oid, critical flag and value, as stored by Extension.__init__.
In the builder path the oid is always derived from the value. -/
structure Extension where
  oid : ObjectIdentifier
  critical : Bool
  value : ExtensionType
deriving DecidableEq

/-- Version enumeration of base.py. -/
inductive Version
  | v1
  | v3
deriving DecidableEq

/-- Python datetime.datetime, modelled by its seven components; comparison is
lexicographic on the component tuple. -/
structure PyDatetime where
  year : Nat
  month : Nat
  day : Nat
  hour : Nat
  minute : Nat
  second : Nat
  microsecond : Nat
deriving DecidableEq

/-- The component tuple of a datetime, most significant first. -/
def PyDatetime.fields (t : PyDatetime) : List Nat :=
  [t.year, t.month, t.day, t.hour, t.minute, t.second, t.microsecond]

/-- Lexicographic less-or-equal on equal-length Nat lists. -/
def lexLeNat : List Nat → List Nat → Bool
  | [], _ => true
  | _ :: _, [] => false
  | a :: as, b :: bs => if a < b then true else if b < a then false else lexLeNat as bs

/-- Python datetime `<=`. -/
def PyDatetime.pyLe (a b : PyDatetime) : Bool :=
  lexLeNat a.fields b.fields

/-- The _UNIX_EPOCH constant: datetime.datetime(1970, 1, 1). -/
def _UNIX_EPOCH : PyDatetime := ⟨1970, 1, 1, 0, 0, 0, 0⟩

/-- One bit of the decoded subjectPublicKey BitString (pyasn1 yields bits). -/
def bitVal (b : Bool) : Nat := if b then 1 else 0

/-- The integer accumulation loop of _key_identifier_from_public_key:
`bits = bits << 1 | bit` over the BitString, starting from 0. -/
def bitsToNat (bits : List Bool) : Nat :=
  bits.foldl (fun acc b => acc * 2 + bitVal b) 0

/-- Big-endian base-256 digits of `n`, most significant first, no leading
zero byte; the fuel argument (any value at least `n`) makes the recursion
structural. -/
def beBytesAux : Nat → Nat → List Nat
  | 0, _ => []
  | fuel + 1, n => if n = 0 then [] else beBytesAux fuel (n / 256) ++ [n % 256]

/-- Modelled from the spec: cryptography.utils.int_to_bytes is not part of
the analysed file; it encodes a non-negative integer as its minimal
big-endian byte sequence via its hexadecimal digits, producing a single zero
byte for zero. -/
def int_to_bytes (n : Nat) : List Nat :=
  if n = 0 then [0] else beBytesAux n n

/-- The byte value of eight bits, most significant first. -/
def byteOfBits (b7 b6 b5 b4 b3 b2 b1 b0 : Bool) : Nat :=
  128 * bitVal b7 + 64 * bitVal b6 + 32 * bitVal b5 + 16 * bitVal b4 +
    8 * bitVal b3 + 4 * bitVal b2 + 2 * bitVal b1 + bitVal b0

/-- The reassembly the specification describes: the bit string regrouped
into bytes with bit order preserved and no padding or truncation.  Stated
from the specification text for comparison with the code path; meaningful on
byte-aligned bit strings. -/
def bitsToBytesSpec : List Bool → List Nat
  | b7 :: b6 :: b5 :: b4 :: b3 :: b2 :: b1 :: b0 :: rest =>
      byteOfBits b7 b6 b5 b4 b3 b2 b1 b0 :: bitsToBytesSpec rest
  | _ => []

/-- Big-endian value of a byte list. -/
def bytesToNat (bs : List Nat) : Nat :=
  bs.foldl (fun acc d => acc * 256 + d) 0

/-- Reduction of a word modulo 2^32. -/
def w32 (n : Nat) : Nat := n % 4294967296

/-- Left rotation of a 32-bit word by `s` bits. -/
def rotl (s n : Nat) : Nat := ((n <<< s) ||| (n >>> (32 - s))) % 4294967296

/-- SHA-1 message padding: append 0x80, zero bytes to 56 mod 64, then the
bit length as eight big-endian bytes. -/
def sha1pad (msg : List Nat) : List Nat :=
  let ml := 8 * msg.length
  let zeros := (64 - ((msg.length + 9) % 64)) % 64
  msg ++ [128] ++ List.replicate zeros 0 ++
    [(ml >>> 56) % 256, (ml >>> 48) % 256, (ml >>> 40) % 256, (ml >>> 32) % 256,
     (ml >>> 24) % 256, (ml >>> 16) % 256, (ml >>> 8) % 256, ml % 256]

/-- Big-endian 32-bit words of a byte list whose length is a multiple of 4. -/
def wordsOfBytes : List Nat → List Nat
  | a :: b :: c :: d :: rest =>
      (((a * 256 + b) * 256 + c) * 256 + d) :: wordsOfBytes rest
  | _ => []

/-- Splits a word list into chunks of sixteen words (fuel-driven). -/
def chunks16 : Nat → List Nat → List (List Nat)
  | 0, _ => []
  | fuel + 1, ws => if ws.isEmpty then [] else ws.take 16 :: chunks16 fuel (ws.drop 16)

/-- Extends the reversed schedule by `k` further words, each the 1-rotation
of the xor of the words 3, 8, 14 and 16 positions back. -/
def extendSchedule : Nat → List Nat → List Nat
  | 0, acc => acc
  | k + 1, acc =>
      extendSchedule k
        (rotl 1 ((acc.getD 2 0) ^^^ (acc.getD 7 0) ^^^ (acc.getD 13 0) ^^^ (acc.getD 15 0)) :: acc)

/-- Round function of SHA-1. -/
def sha1f (i b c d : Nat) : Nat :=
  if i < 20 then (b &&& c) ||| ((4294967295 ^^^ b) &&& d)
  else if i < 40 then b ^^^ c ^^^ d
  else if i < 60 then (b &&& c) ||| (b &&& d) ||| (c &&& d)
  else b ^^^ c ^^^ d

/-- Round constants of SHA-1. -/
def sha1k (i : Nat) : Nat :=
  if i < 20 then 1518500249
  else if i < 40 then 1859775393
  else if i < 60 then 2400959708
  else 3395469782

/-- One SHA-1 round: state is (round index, a, b, c, d, e). -/
def sha1round (st : Nat × Nat × Nat × Nat × Nat × Nat) (w : Nat) :
    Nat × Nat × Nat × Nat × Nat × Nat :=
  let i := st.1
  let a := st.2.1
  let b := st.2.2.1
  let c := st.2.2.2.1
  let d := st.2.2.2.2.1
  let e := st.2.2.2.2.2
  (i + 1, w32 (rotl 5 a + sha1f i b c d + e + sha1k i + w), a, rotl 30 b, c, d)

/-- Processes one sixteen-word chunk against the running hash state. -/
def sha1chunk (hs : Nat × Nat × Nat × Nat × Nat) (chunk : List Nat) :
    Nat × Nat × Nat × Nat × Nat :=
  let ws := (extendSchedule 64 chunk.reverse).reverse
  let fin := ws.foldl sha1round (0, hs.1, hs.2.1, hs.2.2.1, hs.2.2.2.1, hs.2.2.2.2)
  (w32 (hs.1 + fin.2.1), w32 (hs.2.1 + fin.2.2.1), w32 (hs.2.2.1 + fin.2.2.2.1),
   w32 (hs.2.2.2.1 + fin.2.2.2.2.1), w32 (hs.2.2.2.2 + fin.2.2.2.2.2))

/-- Big-endian bytes of a 32-bit word. -/
def wordToBytes (n : Nat) : List Nat :=
  [(n >>> 24) % 256, (n >>> 16) % 256, (n >>> 8) % 256, n % 256]

/-- SHA-1 of a byte message (hashlib.sha1(...).digest(), the fixed 160-bit
digest algorithm the derivation uses; an external collaborator, modelled by
the standard algorithm). -/
def sha1 (msg : List Nat) : List Nat :=
  let ws := wordsOfBytes (sha1pad msg)
  let hs := (chunks16 (ws.length + 1) ws).foldl sha1chunk
    (1732584193, 4023233417, 2562383102, 271733878, 3285377520)
  wordToBytes hs.1 ++ wordToBytes hs.2.1 ++ wordToBytes hs.2.2.1 ++
    wordToBytes hs.2.2.2.1 ++ wordToBytes hs.2.2.2.2

/-- Public keys: the three accepted key classes (DSAPublicKey, RSAPublicKey,
EllipticCurvePublicKey), each carrying the subjectPublicKey BitString of its
DER SubjectPublicKeyInfo encoding, the data the external serialization and
pyasn1 collaborators hand to the derivation. -/
inductive PublicKey
  | dsaKey (spki_bits : List Bool)
  | rsaKey (spki_bits : List Bool)
  | ecKey (spki_bits : List Bool)
deriving DecidableEq

/-- The subjectPublicKey BitString of a key's encoded SubjectPublicKeyInfo. -/
def PublicKey.spkiBits : PublicKey → List Bool
  | .dsaKey bits => bits
  | .rsaKey bits => bits
  | .ecKey bits => bits

/-- _key_identifier_from_public_key: folds the BitString bits into an
integer (`bits = bits << 1 | bit`), converts the integer to bytes with
utils.int_to_bytes, and hashes the bytes with SHA-1. -/
def _key_identifier_from_public_key (public_key : PublicKey) : List Nat :=
  sha1 (int_to_bytes (bitsToNat public_key.spkiBits))

/-- Opaque private key handed to sign. -/
structure PrivateKey where
  key_id : Nat
deriving DecidableEq

/-- Opaque signature hash algorithm identifier handed to sign. -/
structure HashAlgorithm where
  algo_name : String
deriving DecidableEq

/-- CertificateSigningRequestBuilder: accumulated subject name and
extension list. -/
structure CertificateSigningRequestBuilder where
  _subject_name : Option Name
  _extensions : List Extension
deriving DecidableEq

/-- CertificateSigningRequestBuilder(): the empty builder. -/
def CertificateSigningRequestBuilder.empty : CertificateSigningRequestBuilder :=
  ⟨none, []⟩

/-- CertificateSigningRequestBuilder.subject_name: set-at-most-once setter
returning a new builder. -/
def CertificateSigningRequestBuilder.subject_name
    (b : CertificateSigningRequestBuilder) (name : Name) :
    Except PyErr CertificateSigningRequestBuilder :=
  if b._subject_name.isSome then
    .error (.valueError "The subject name may only be set once.")
  else
    .ok ⟨some name, b._extensions⟩

/-- CertificateSigningRequestBuilder.add_extension: derives the oid from the
value, rejects a duplicate oid, else appends. -/
def CertificateSigningRequestBuilder.add_extension
    (b : CertificateSigningRequestBuilder) (extension : ExtensionType)
    (critical : Bool) : Except PyErr CertificateSigningRequestBuilder :=
  if b._extensions.any (fun e => e.oid == extension.oid) then
    .error (.valueError "This extension has already been set.")
  else
    .ok ⟨b._subject_name, b._extensions ++ [⟨extension.oid, critical, extension⟩]⟩

/-- CertificateSigningRequestBuilder.sign: fails when the subject is unset,
else returns backend.create_x509_csr(self, private_key, algorithm). -/
def CertificateSigningRequestBuilder.sign {α : Type}
    (b : CertificateSigningRequestBuilder) (private_key : PrivateKey)
    (algorithm : HashAlgorithm)
    (backend : CertificateSigningRequestBuilder → PrivateKey → HashAlgorithm → α) :
    Except PyErr α :=
  if b._subject_name.isNone then
    .error (.valueError "A CertificateSigningRequest must have a subject")
  else
    .ok (backend b private_key algorithm)

/-- CertificateBuilder: the accumulated certificate fields; __init__ always
stores Version.v3. -/
structure CertificateBuilder where
  _version : Version
  _issuer_name : Option Name
  _subject_name : Option Name
  _public_key : Option PublicKey
  _serial_number : Option Int
  _not_valid_before : Option PyDatetime
  _not_valid_after : Option PyDatetime
  _extensions : List Extension
deriving DecidableEq

/-- CertificateBuilder(): the empty builder. -/
def CertificateBuilder.empty : CertificateBuilder :=
  ⟨Version.v3, none, none, none, none, none, none, []⟩

/-- CertificateBuilder.issuer_name setter. -/
def CertificateBuilder.issuer_name (b : CertificateBuilder) (name : Name) :
    Except PyErr CertificateBuilder :=
  if b._issuer_name.isSome then
    .error (.valueError "The issuer name may only be set once.")
  else
    .ok ⟨Version.v3, some name, b._subject_name, b._public_key, b._serial_number,
      b._not_valid_before, b._not_valid_after, b._extensions⟩

/-- CertificateBuilder.subject_name setter. -/
def CertificateBuilder.subject_name (b : CertificateBuilder) (name : Name) :
    Except PyErr CertificateBuilder :=
  if b._subject_name.isSome then
    .error (.valueError "The subject name may only be set once.")
  else
    .ok ⟨Version.v3, b._issuer_name, some name, b._public_key, b._serial_number,
      b._not_valid_before, b._not_valid_after, b._extensions⟩

/-- CertificateBuilder.public_key setter. -/
def CertificateBuilder.public_key (b : CertificateBuilder) (key : PublicKey) :
    Except PyErr CertificateBuilder :=
  if b._public_key.isSome then
    .error (.valueError "The public key may only be set once.")
  else
    .ok ⟨Version.v3, b._issuer_name, b._subject_name, some key, b._serial_number,
      b._not_valid_before, b._not_valid_after, b._extensions⟩

/-- Python int.bit_length() for the (non-negative) values reaching the
bit-length check: the number of binary digits, 0 for zero. -/
def bit_length (n : Int) : Nat := Nat.size n.toNat

/-- CertificateBuilder.serial_number setter: set at most once, non-negative,
at most 160 bits (RFC 5280). -/
def CertificateBuilder.serial_number (b : CertificateBuilder) (number : Int) :
    Except PyErr CertificateBuilder :=
  if b._serial_number.isSome then
    .error (.valueError "The serial number may only be set once.")
  else if number < 0 then
    .error (.valueError "The serial number should be non-negative.")
  else if bit_length number > 160 then
    .error (.valueError "The serial number should not be more than 160 bits.")
  else
    .ok ⟨Version.v3, b._issuer_name, b._subject_name, b._public_key, some number,
      b._not_valid_before, b._not_valid_after, b._extensions⟩

/-- CertificateBuilder.not_valid_before setter: set at most once, strictly
after the unix epoch. -/
def CertificateBuilder.not_valid_before (b : CertificateBuilder) (time : PyDatetime) :
    Except PyErr CertificateBuilder :=
  if b._not_valid_before.isSome then
    .error (.valueError "The not valid before may only be set once.")
  else if time.pyLe _UNIX_EPOCH then
    .error (.valueError
      "The not valid before date must be after the unix epoch (1970 January 1).")
  else
    .ok ⟨Version.v3, b._issuer_name, b._subject_name, b._public_key,
      b._serial_number, some time, b._not_valid_after, b._extensions⟩

/-- CertificateBuilder.not_valid_after setter: set at most once, strictly
after the unix epoch. -/
def CertificateBuilder.not_valid_after (b : CertificateBuilder) (time : PyDatetime) :
    Except PyErr CertificateBuilder :=
  if b._not_valid_after.isSome then
    .error (.valueError "The not valid after may only be set once.")
  else if time.pyLe _UNIX_EPOCH then
    .error (.valueError
      "The not valid after date must be after the unix epoch (1970 January 1).")
  else
    .ok ⟨Version.v3, b._issuer_name, b._subject_name, b._public_key,
      b._serial_number, b._not_valid_before, some time, b._extensions⟩

/-- CertificateBuilder.add_extension: derives the oid from the value,
rejects a duplicate oid, else appends. -/
def CertificateBuilder.add_extension (b : CertificateBuilder)
    (extension : ExtensionType) (critical : Bool) :
    Except PyErr CertificateBuilder :=
  if b._extensions.any (fun e => e.oid == extension.oid) then
    .error (.valueError "This extension has already been set.")
  else
    .ok ⟨Version.v3, b._issuer_name, b._subject_name, b._public_key,
      b._serial_number, b._not_valid_before, b._not_valid_after,
      b._extensions ++ [⟨extension.oid, critical, extension⟩]⟩

/-- CertificateBuilder.sign: raises for each unset mandatory field in source
order (subject, issuer, serial, not-before, not-after, public key), else
returns backend.create_x509_certificate(self, private_key, algorithm). -/
def CertificateBuilder.sign {α : Type} (b : CertificateBuilder)
    (private_key : PrivateKey) (algorithm : HashAlgorithm)
    (backend : CertificateBuilder → PrivateKey → HashAlgorithm → α) :
    Except PyErr α :=
  if b._subject_name.isNone then
    .error (.valueError "A certificate must have a subject name")
  else if b._issuer_name.isNone then
    .error (.valueError "A certificate must have an issuer name")
  else if b._serial_number.isNone then
    .error (.valueError "A certificate must have a serial number")
  else if b._not_valid_before.isNone then
    .error (.valueError "A certificate must have a not valid before time")
  else if b._not_valid_after.isNone then
    .error (.valueError "A certificate must have a not valid after time")
  else if b._public_key.isNone then
    .error (.valueError "A certificate must have a public key")
  else
    .ok (backend b private_key algorithm)

/-- A sixteen-bit subjectPublicKey BitString whose leading byte is zero,
used to exhibit the truncation performed by the integer round-trip. -/
def cexBits : List Bool :=
  [false, false, false, false, false, false, false, false,
   false, false, false, false, false, false, false, true]

theorem sha1_length (msg : List Nat) : (sha1 msg).length = 20 := by
  simp [sha1, wordToBytes]

theorem bitVal_le_one (b : Bool) : bitVal b ≤ 1 := by
  cases b <;> simp [bitVal]

theorem foldl_bits_byte (b7 b6 b5 b4 b3 b2 b1 b0 : Bool) (rest : List Bool) (acc : Nat) :
    List.foldl (fun a b => a * 2 + bitVal b) acc
      (b7 :: b6 :: b5 :: b4 :: b3 :: b2 :: b1 :: b0 :: rest) =
    List.foldl (fun a b => a * 2 + bitVal b)
      (acc * 256 + byteOfBits b7 b6 b5 b4 b3 b2 b1 b0) rest := by
  simp only [List.foldl]
  congr 1
  simp [byteOfBits]
  ring

theorem bitsToNat_spec_aux : ∀ (bits : List Bool), bits.length % 8 = 0 →
    ∀ acc, List.foldl (fun a b => a * 2 + bitVal b) acc bits =
      List.foldl (fun a d => a * 256 + d) acc (bitsToBytesSpec bits) := by
  intro bits
  induction bits using bitsToBytesSpec.induct with
  | case1 b7 b6 b5 b4 b3 b2 b1 b0 rest ih =>
    intro h acc
    rw [foldl_bits_byte]
    rw [bitsToBytesSpec]
    simp only [List.foldl]
    exact ih (by simp at h; omega) _
  | case2 bits h8 =>
    intro h acc
    rcases bits with _ | ⟨b7, _ | ⟨b6, _ | ⟨b5, _ | ⟨b4, _ | ⟨b3, _ | ⟨b2, _ | ⟨b1, _ | ⟨b0, rest⟩⟩⟩⟩⟩⟩⟩⟩
    · rfl
    all_goals first
      | (exact absurd rfl (by exact fun hh => h8 _ _ _ _ _ _ _ _ _ hh))
      | (simp at h)

theorem beBytesAux_zero (fuel : Nat) : beBytesAux fuel 0 = [] := by
  cases fuel <;> simp [beBytesAux]

theorem bytesToNat_append_one (l : List Nat) (d : Nat) :
    bytesToNat (l ++ [d]) = bytesToNat l * 256 + d := by
  simp [bytesToNat, List.foldl_append]

theorem foldl_bytes_pos (t : List Nat) : ∀ acc, 0 < acc →
    0 < List.foldl (fun a d => a * 256 + d) acc t := by
  induction t with
  | nil => intro acc h; simpa using h
  | cons d t ih =>
    intro acc h
    simp only [List.foldl]
    exact ih _ (by omega)

theorem bytesToNat_pos (h : Nat) (t : List Nat) (hh : h ≠ 0) :
    0 < bytesToNat (h :: t) := by
  have : bytesToNat (h :: t) = List.foldl (fun a d => a * 256 + d) h t := by
    simp [bytesToNat, List.foldl]
  rw [this]
  exact foldl_bytes_pos t h (Nat.pos_of_ne_zero hh)

theorem beBytesAux_spec : ∀ (bs : List Nat), bs ≠ [] → bs.head? ≠ some 0 →
    (∀ d ∈ bs, d < 256) → ∀ fuel, bytesToNat bs ≤ fuel →
    beBytesAux fuel (bytesToNat bs) = bs := by
  intro bs
  induction bs using List.reverseRecOn with
  | nil => intro h; exact absurd rfl h
  | append_singleton l a ih =>
    intro _ hhead hlt fuel hfuel
    rcases l with _ | ⟨h, t⟩
    · -- bs = [a]
      simp only [List.nil_append] at hhead hlt hfuel ⊢
      have ha : a ≠ 0 := by simpa using hhead
      have ha256 : a < 256 := by exact hlt a (by simp)
      have hval : bytesToNat [a] = a := by simp [bytesToNat]
      rw [hval] at hfuel ⊢
      have : 1 ≤ fuel := le_trans (Nat.pos_of_ne_zero ha) hfuel
      obtain ⟨f, rfl⟩ : ∃ f, fuel = f + 1 := ⟨fuel - 1, by omega⟩
      rw [beBytesAux, if_neg ha]
      rw [Nat.div_eq_of_lt ha256, beBytesAux_zero, Nat.mod_eq_of_lt ha256]
      rfl
    · -- bs = (h :: t) ++ [a]
      have hh : h ≠ 0 := by simpa using hhead
      have hm : 0 < bytesToNat (h :: t) := bytesToNat_pos h t hh
      have ha256 : a < 256 := hlt a (by simp)
      have hn : bytesToNat ((h :: t) ++ [a]) = bytesToNat (h :: t) * 256 + a :=
        bytesToNat_append_one _ _
      rw [hn] at hfuel ⊢
      have hfuel1 : 1 ≤ fuel := by omega
      obtain ⟨f, rfl⟩ : ∃ f, fuel = f + 1 := ⟨fuel - 1, by omega⟩
      have hne : bytesToNat (h :: t) * 256 + a ≠ 0 := by omega
      rw [beBytesAux, if_neg hne]
      have hdiv : (bytesToNat (h :: t) * 256 + a) / 256 = bytesToNat (h :: t) := by
        omega
      have hmod : (bytesToNat (h :: t) * 256 + a) % 256 = a := by
        omega
      rw [hdiv, hmod]
      rw [ih (by simp) (by simpa using hh) (fun d hd => hlt d (by simp at hd ⊢; tauto)) f (by omega)]

theorem int_to_bytes_bytesToNat (h : Nat) (t : List Nat) (hh : h ≠ 0)
    (hlt : ∀ d ∈ h :: t, d < 256) :
    int_to_bytes (bytesToNat (h :: t)) = h :: t := by
  have hp : 0 < bytesToNat (h :: t) := bytesToNat_pos h t hh
  rw [int_to_bytes, if_neg (Nat.pos_iff_ne_zero.mp hp)]
  exact beBytesAux_spec (h :: t) (by simp) (by simpa using hh) hlt _ le_rfl

theorem byteOfBits_lt (b7 b6 b5 b4 b3 b2 b1 b0 : Bool) :
    byteOfBits b7 b6 b5 b4 b3 b2 b1 b0 < 256 := by
  have h7 := bitVal_le_one b7
  have h6 := bitVal_le_one b6
  have h5 := bitVal_le_one b5
  have h4 := bitVal_le_one b4
  have h3 := bitVal_le_one b3
  have h2 := bitVal_le_one b2
  have h1 := bitVal_le_one b1
  have h0 := bitVal_le_one b0
  unfold byteOfBits
  omega

theorem bitsToBytesSpec_lt : ∀ (bits : List Bool), ∀ d ∈ bitsToBytesSpec bits, d < 256 := by
  intro bits
  induction bits using bitsToBytesSpec.induct with
  | case1 b7 b6 b5 b4 b3 b2 b1 b0 rest ih =>
    intro d hd
    rw [bitsToBytesSpec] at hd
    rcases List.mem_cons.mp hd with h | h
    · rw [h]; exact byteOfBits_lt b7 b6 b5 b4 b3 b2 b1 b0
    · exact ih d h
  | case2 bits h8 =>
    intro d hd
    rcases bits with _ | ⟨b7, _ | ⟨b6, _ | ⟨b5, _ | ⟨b4, _ | ⟨b3, _ | ⟨b2, _ | ⟨b1, _ | ⟨b0, rest⟩⟩⟩⟩⟩⟩⟩⟩
    all_goals first
      | (exact absurd rfl (fun hh => h8 _ _ _ _ _ _ _ _ _ hh))
      | (simp [bitsToBytesSpec] at hd)

theorem byteOfBits_ne_zero (b7 b6 b5 b4 b3 b2 b1 b0 : Bool)
    (h : b7 = true ∨ b6 = true ∨ b5 = true ∨ b4 = true ∨
         b3 = true ∨ b2 = true ∨ b1 = true ∨ b0 = true) :
    byteOfBits b7 b6 b5 b4 b3 b2 b1 b0 ≠ 0 := by
  rcases h with h | h | h | h | h | h | h | h <;>
    · subst h
      unfold byteOfBits
      simp [bitVal]
      try omega

theorem bitsToNat_spec (bits : List Bool) (h : bits.length % 8 = 0) :
    bitsToNat bits = bytesToNat (bitsToBytesSpec bits) :=
  bitsToNat_spec_aux bits h 0

theorem key_id_reassembly (bits : List Bool) (h8 : bits.length % 8 = 0)
    (hnz : (bits.take 8).any id = true) :
    int_to_bytes (bitsToNat bits) = bitsToBytesSpec bits := by
  rcases bits with _ | ⟨b7, _ | ⟨b6, _ | ⟨b5, _ | ⟨b4, _ | ⟨b3, _ | ⟨b2, _ | ⟨b1, _ | ⟨b0, rest⟩⟩⟩⟩⟩⟩⟩⟩
  all_goals (try simp_all)
  -- remaining: the 8-cons case
  have hbyte : byteOfBits b7 b6 b5 b4 b3 b2 b1 b0 ≠ 0 := by
    apply byteOfBits_ne_zero
    tauto
  have hspec : bitsToBytesSpec (b7 :: b6 :: b5 :: b4 :: b3 :: b2 :: b1 :: b0 :: rest) =
      byteOfBits b7 b6 b5 b4 b3 b2 b1 b0 :: bitsToBytesSpec rest := by
    rw [bitsToBytesSpec]
  rw [bitsToNat_spec _ (by simpa using h8), hspec]
  apply int_to_bytes_bytesToNat
  · exact hbyte
  · intro d hd
    rcases List.mem_cons.mp hd with h | h
    · rw [h]; exact byteOfBits_lt b7 b6 b5 b4 b3 b2 b1 b0
    · exact bitsToBytesSpec_lt rest d h

theorem serial_number_ok (b : CertificateBuilder) (n : Int)
    (h : b._serial_number = none) (h0 : 0 ≤ n) (h1 : n < 2 ^ 160) :
    b.serial_number n = .ok ⟨Version.v3, b._issuer_name, b._subject_name,
      b._public_key, some n, b._not_valid_before, b._not_valid_after,
      b._extensions⟩ := by
  have hsz : bit_length n ≤ 160 := by
    rw [bit_length, Nat.size_le]
    have e1 : ((2 : ℤ) ^ 160) = (1461501637330902918203684832716283019655932542976 : ℤ) := by
      norm_num
    have e2 : ((2 : ℕ) ^ 160) = (1461501637330902918203684832716283019655932542976 : ℕ) := by
      norm_num
    rw [e2]
    rw [e1] at h1
    omega
  unfold CertificateBuilder.serial_number
  rw [h]
  simp only [Option.isSome_none, Bool.false_eq_true, if_false]
  rw [if_neg (by omega), if_neg (by omega)]

theorem serial_number_ok_shape (b : CertificateBuilder) (n : Int)
    (b' : CertificateBuilder) (h : b.serial_number n = .ok b') :
    b' = ⟨Version.v3, b._issuer_name, b._subject_name, b._public_key, some n,
      b._not_valid_before, b._not_valid_after, b._extensions⟩ := by
  unfold CertificateBuilder.serial_number at h
  split at h
  · exact absurd h (by simp)
  split at h
  · exact absurd h (by simp)
  split at h
  · exact absurd h (by simp)
  exact (Except.ok.injEq _ _).mp h.symm

theorem issuer_name_ok_shape (b : CertificateBuilder) (nm : Name)
    (b' : CertificateBuilder) (h : b.issuer_name nm = .ok b') :
    b' = ⟨Version.v3, some nm, b._subject_name, b._public_key, b._serial_number,
      b._not_valid_before, b._not_valid_after, b._extensions⟩ := by
  unfold CertificateBuilder.issuer_name at h
  split at h
  · exact absurd h (by simp)
  exact (Except.ok.injEq _ _).mp h.symm

theorem cb_add_extension_ok_shape (b : CertificateBuilder) (ext : ExtensionType)
    (c : Bool) (b' : CertificateBuilder) (h : b.add_extension ext c = .ok b') :
    b' = ⟨Version.v3, b._issuer_name, b._subject_name, b._public_key,
      b._serial_number, b._not_valid_before, b._not_valid_after,
      b._extensions ++ [⟨ext.oid, c, ext⟩]⟩ := by
  unfold CertificateBuilder.add_extension at h
  split at h
  · exact absurd h (by simp)
  exact (Except.ok.injEq _ _).mp h.symm

theorem csr_add_extension_ok_shape (b : CertificateSigningRequestBuilder)
    (ext : ExtensionType) (c : Bool) (b' : CertificateSigningRequestBuilder)
    (h : b.add_extension ext c = .ok b') :
    b' = ⟨b._subject_name, b._extensions ++ [⟨ext.oid, c, ext⟩]⟩ := by
  unfold CertificateSigningRequestBuilder.add_extension at h
  split at h
  · exact absurd h (by simp)
  exact (Except.ok.injEq _ _).mp h.symm

theorem not_valid_before_ok_shape (b : CertificateBuilder) (t : PyDatetime)
    (b' : CertificateBuilder) (h : b.not_valid_before t = .ok b') :
    b' = ⟨Version.v3, b._issuer_name, b._subject_name, b._public_key,
      b._serial_number, some t, b._not_valid_after, b._extensions⟩ := by
  unfold CertificateBuilder.not_valid_before at h
  split at h
  · exact absurd h (by simp)
  split at h
  · exact absurd h (by simp)
  exact (Except.ok.injEq _ _).mp h.symm

theorem not_valid_after_ok_shape (b : CertificateBuilder) (t : PyDatetime)
    (b' : CertificateBuilder) (h : b.not_valid_after t = .ok b') :
    b' = ⟨Version.v3, b._issuer_name, b._subject_name, b._public_key,
      b._serial_number, b._not_valid_before, some t, b._extensions⟩ := by
  unfold CertificateBuilder.not_valid_after at h
  split at h
  · exact absurd h (by simp)
  split at h
  · exact absurd h (by simp)
  exact (Except.ok.injEq _ _).mp h.symm


/-- C1 (corrected): derivation is deterministic and yields a 20-byte SHA-1
digest, but of the minimal big-endian encoding of the bit-string integer. -/
theorem C1_key_identifier (public_key : PublicKey) :
    _key_identifier_from_public_key public_key =
      _key_identifier_from_public_key public_key ∧
    (_key_identifier_from_public_key public_key).length = 20 ∧
    (public_key.spkiBits.length % 8 = 0 →
      (public_key.spkiBits.take 8).any id = true →
      _key_identifier_from_public_key public_key =
        sha1 (bitsToBytesSpec public_key.spkiBits)) := by
  refine ⟨rfl, sha1_length _, fun h8 hnz => ?_⟩
  unfold _key_identifier_from_public_key
  rw [key_id_reassembly _ h8 hnz]

/-- C1 counterexample. -/
theorem C1_key_identifier_counterexample :
    _key_identifier_from_public_key (.rsaKey cexBits) ≠
      sha1 (bitsToBytesSpec (PublicKey.spkiBits (.rsaKey cexBits))) := by
  decide

/-- C1 witness. -/
theorem C1_key_identifier_witness :
    (_key_identifier_from_public_key
      (.rsaKey [false, false, true, true, false, false, false, false])).length = 20 ∧
    _key_identifier_from_public_key
      (.rsaKey [false, false, true, true, false, false, false, false]) =
      sha1 (bitsToBytesSpec (PublicKey.spkiBits
        (.rsaKey [false, false, true, true, false, false, false, false]))) := by
  have h := C1_key_identifier (.rsaKey [false, false, true, true, false, false, false, false])
  exact ⟨h.2.1, h.2.2 (by decide) (by decide)⟩

/-- C2: sign fails before the backend iff a mandatory field is unset. -/
theorem C2_sign_incomplete (α : Type) (b : CertificateBuilder)
    (csr : CertificateSigningRequestBuilder) (pk : PrivateKey)
    (alg : HashAlgorithm)
    (backend : CertificateBuilder → PrivateKey → HashAlgorithm → α)
    (csr_backend : CertificateSigningRequestBuilder → PrivateKey → HashAlgorithm → α) :
    (exErr (b.sign pk alg backend) = true ↔
      (b._subject_name = none ∨ b._issuer_name = none ∨ b._serial_number = none ∨
       b._not_valid_before = none ∨ b._not_valid_after = none ∨
       b._public_key = none)) ∧
    (exErr (csr.sign pk alg csr_backend) = true ↔ csr._subject_name = none) := by
  constructor
  · rcases b with ⟨v, i, s, k, sn, nb, na, ex⟩
    cases i <;> cases s <;> cases k <;> cases sn <;> cases nb <;> cases na <;>
      simp [CertificateBuilder.sign, exErr]
  · rcases csr with ⟨s, ex⟩
    cases s <;> simp [CertificateSigningRequestBuilder.sign, exErr]

/-- C2 witness. -/
theorem C2_sign_incomplete_witness :
    exErr (CertificateBuilder.empty.sign ⟨0⟩ ⟨"sha256"⟩ (fun _ _ _ => (0 : Nat))) = true ∧
    exErr (CertificateSigningRequestBuilder.empty.sign ⟨0⟩ ⟨"sha256"⟩
      (fun _ _ _ => (0 : Nat))) = true := by
  have h := C2_sign_incomplete Nat CertificateBuilder.empty
    CertificateSigningRequestBuilder.empty ⟨0⟩ ⟨"sha256"⟩
    (fun _ _ _ => 0) (fun _ _ _ => 0)
  exact ⟨h.1.mpr (Or.inl rfl), h.2.mpr rfl⟩

/-- C4: serial-number range enforced at the setter, not at sign. -/
theorem C4_serial_number_range (b : CertificateBuilder) (n : Int)
    (hunset : b._serial_number = none) :
    (n < 0 → exErr (b.serial_number n) = true) ∧
    ((2 : ℤ) ^ 160 ≤ n → exErr (b.serial_number n) = true) ∧
    (0 ≤ n → n < 2 ^ 160 →
      b.serial_number n = .ok ⟨Version.v3, b._issuer_name, b._subject_name,
        b._public_key, some n, b._not_valid_before, b._not_valid_after,
        b._extensions⟩) ∧
    (∀ (α : Type) (i s : Name) (k : PublicKey) (t1 t2 : PyDatetime)
      (ex : List Extension) (pk : PrivateKey) (alg : HashAlgorithm)
      (backend : CertificateBuilder → PrivateKey → HashAlgorithm → α),
      (CertificateBuilder.mk Version.v3 (some i) (some s) (some k) (some n)
        (some t1) (some t2) ex).sign pk alg backend =
        .ok (backend ⟨Version.v3, some i, some s, some k, some n, some t1,
          some t2, ex⟩ pk alg)) := by
  refine ⟨?_, ?_, ?_, ?_⟩
  · intro hneg
    unfold CertificateBuilder.serial_number
    rw [hunset]
    simp [exErr, hneg]
  · intro hbig
    have hnneg : ¬ n < 0 := by
      have : ((2 : ℤ) ^ 160) = (1461501637330902918203684832716283019655932542976 : ℤ) := by
        norm_num
      omega
    have hsz : bit_length n > 160 := by
      rw [bit_length]
      rw [gt_iff_lt, Nat.lt_size]
      have e1 : ((2 : ℤ) ^ 160) = (1461501637330902918203684832716283019655932542976 : ℤ) := by
        norm_num
      have e2 : ((2 : ℕ) ^ 160) = (1461501637330902918203684832716283019655932542976 : ℕ) := by
        norm_num
      rw [e2]
      rw [e1] at hbig
      omega
    unfold CertificateBuilder.serial_number
    rw [hunset]
    simp [exErr, hsz, hnneg]
  · exact serial_number_ok b n hunset
  · intro α i s k t1 t2 ex pk alg backend
    rfl

/-- C4 witness. -/
theorem C4_serial_number_range_witness :
    CertificateBuilder.empty.serial_number (2 ^ 159) =
      .ok ⟨Version.v3, none, none, none, some (2 ^ 159), none, none, []⟩ ∧
    exErr (CertificateBuilder.empty.serial_number (-1)) = true ∧
    exErr (CertificateBuilder.empty.serial_number (2 ^ 161)) = true := by
  refine ⟨(C4_serial_number_range CertificateBuilder.empty (2 ^ 159) rfl).2.2.1
      (by norm_num) (by norm_num),
    (C4_serial_number_range CertificateBuilder.empty (-1) rfl).1 (by norm_num),
    (C4_serial_number_range CertificateBuilder.empty (2 ^ 161) rfl).2.1 (by norm_num)⟩

/-- C3: duplicate-OID extensions are rejected regardless of critical flags;
fresh OIDs are appended. -/
theorem C3_add_extension_duplicate (b : CertificateBuilder)
    (csr : CertificateSigningRequestBuilder) (e1 e2 : ExtensionType)
    (c1 c2 : Bool) (b' : CertificateBuilder)
    (csr' : CertificateSigningRequestBuilder) :
    (e1.oid = e2.oid →
      (b.add_extension e1 c1 = .ok b' → exErr (b'.add_extension e2 c2) = true) ∧
      (csr.add_extension e1 c1 = .ok csr' → exErr (csr'.add_extension e2 c2) = true)) ∧
    ((∀ e ∈ b._extensions, e.oid ≠ e1.oid) →
      b.add_extension e1 c1 = .ok ⟨Version.v3, b._issuer_name, b._subject_name,
        b._public_key, b._serial_number, b._not_valid_before, b._not_valid_after,
        b._extensions ++ [⟨e1.oid, c1, e1⟩]⟩) ∧
    ((∀ e ∈ csr._extensions, e.oid ≠ e1.oid) →
      csr.add_extension e1 c1 = .ok ⟨csr._subject_name,
        csr._extensions ++ [⟨e1.oid, c1, e1⟩]⟩) := by
  refine ⟨fun hoid => ⟨fun hok => ?_, fun hok => ?_⟩, fun hfresh => ?_, fun hfresh => ?_⟩
  · rw [cb_add_extension_ok_shape b e1 c1 b' hok]
    unfold CertificateBuilder.add_extension
    rw [if_pos]
    · rfl
    · simp [List.any_append, hoid]
  · rw [csr_add_extension_ok_shape csr e1 c1 csr' hok]
    unfold CertificateSigningRequestBuilder.add_extension
    rw [if_pos]
    · rfl
    · simp [List.any_append, hoid]
  · have hguard : (b._extensions.any (fun e => e.oid == e1.oid)) = false := by
      simp only [List.any_eq_false, beq_iff_eq]
      intro e he
      exact hfresh e he
    simp [CertificateBuilder.add_extension, hguard]
  · have hguard : (csr._extensions.any (fun e => e.oid == e1.oid)) = false := by
      simp only [List.any_eq_false, beq_iff_eq]
      intro e he
      exact hfresh e he
    simp [CertificateSigningRequestBuilder.add_extension, hguard]

/-- C3 witness. -/
theorem C3_add_extension_duplicate_witness :
    CertificateBuilder.empty.add_extension .ocspNoCheck true =
      .ok ⟨Version.v3, none, none, none, none, none, none,
        [⟨ExtensionType.oid .ocspNoCheck, true, .ocspNoCheck⟩]⟩ ∧
    exErr ((CertificateBuilder.mk Version.v3 none none none none none none
      [⟨ExtensionType.oid .ocspNoCheck, true, .ocspNoCheck⟩]).add_extension
        .ocspNoCheck false) = true ∧
    CertificateSigningRequestBuilder.empty.add_extension .ocspNoCheck true =
      .ok ⟨none, [⟨ExtensionType.oid .ocspNoCheck, true, .ocspNoCheck⟩]⟩ ∧
    exErr ((CertificateSigningRequestBuilder.mk none
      [⟨ExtensionType.oid .ocspNoCheck, true, .ocspNoCheck⟩]).add_extension
        .ocspNoCheck false) = true := by
  have h := C3_add_extension_duplicate CertificateBuilder.empty
    CertificateSigningRequestBuilder.empty .ocspNoCheck .ocspNoCheck true false
    ⟨Version.v3, none, none, none, none, none, none,
      [⟨ExtensionType.oid .ocspNoCheck, true, .ocspNoCheck⟩]⟩
    ⟨none, [⟨ExtensionType.oid .ocspNoCheck, true, .ocspNoCheck⟩]⟩
  refine ⟨?_, ?_, ?_, ?_⟩
  · exact h.2.1 (by decide)
  · exact (h.1 rfl).1 (h.2.1 (by decide))
  · exact h.2.2 (by decide)
  · exact (h.1 rfl).2 (h.2.2 (by decide))

/-- C5 (corrected): NameConstraints construction characterization. -/
theorem C5_name_constraints (p e : Option (List GeneralName)) :
    exErr (mkNameConstraints p e) =
      (subtreeBad p || subtreeBad e || (p.isNone && e.isNone)) ∧
    (exErr (mkNameConstraints p e) = false → mkNameConstraints p e = .ok ⟨p, e⟩) := by
  constructor
  · cases h1 : subtreeBad p <;> cases h2 : subtreeBad e <;>
      cases h3 : (p.isNone && e.isNone) <;>
      simp [mkNameConstraints, h1, h2, h3, exErr]
  · intro hok
    unfold mkNameConstraints at hok ⊢
    cases h1 : subtreeBad p <;> cases h2 : subtreeBad e <;>
      cases h3 : (p.isNone && e.isNone) <;>
      simp_all [exErr]

/-- C5 counterexample: both subtree lists non-null succeeds. -/
theorem C5_name_constraints_counterexample :
    exOk (mkNameConstraints (some [GeneralName.DNSName "a"])
      (some [GeneralName.DNSName "b"])) = true := by
  decide

/-- C5 witness. -/
theorem C5_name_constraints_witness :
    exErr (mkNameConstraints (some [GeneralName.IPAddress (.v4Address 167772160)]) none) = true ∧
    exErr (mkNameConstraints (none : Option (List GeneralName)) none) = true ∧
    mkNameConstraints (some [GeneralName.IPAddress (.v4Network 167772160 8)]) none =
      .ok ⟨some [GeneralName.IPAddress (.v4Network 167772160 8)], none⟩ := by
  have h1 := C5_name_constraints (some [GeneralName.IPAddress (.v4Address 167772160)]) none
  have h2 := C5_name_constraints (none : Option (List GeneralName)) none
  have h3 := C5_name_constraints (some [GeneralName.IPAddress (.v4Network 167772160 8)]) none
  refine ⟨?_, ?_, ?_⟩
  · rw [h1.1]; decide
  · rw [h2.1]; decide
  · exact h3.2 (by rw [h3.1]; decide)

/-- C6: epoch check on both validity setters; no ordering check anywhere. -/
theorem C6_validity_epoch (b : CertificateBuilder) (t : PyDatetime) :
    (b._not_valid_before = none →
      (exErr (b.not_valid_before t) = true ↔ t.pyLe _UNIX_EPOCH = true)) ∧
    (b._not_valid_after = none →
      (exErr (b.not_valid_after t) = true ↔ t.pyLe _UNIX_EPOCH = true)) ∧
    (∀ (α : Type) (i s : Name) (k : PublicKey) (n : Int) (ex : List Extension)
      (t1 t2 : PyDatetime) (b1 b2 : CertificateBuilder) (pk : PrivateKey)
      (alg : HashAlgorithm)
      (backend : CertificateBuilder → PrivateKey → HashAlgorithm → α),
      t1.pyLe _UNIX_EPOCH = false → t2.pyLe _UNIX_EPOCH = false →
      t1.pyLe t2 = false →
      (CertificateBuilder.mk Version.v3 (some i) (some s) (some k) (some n)
        none none ex).not_valid_before t1 = .ok b1 →
      b1.not_valid_after t2 = .ok b2 →
      b2._not_valid_before = some t1 ∧ b2._not_valid_after = some t2 ∧
      exOk (b2.sign pk alg backend) = true) := by
  refine ⟨fun hunset => ?_, fun hunset => ?_, ?_⟩
  · unfold CertificateBuilder.not_valid_before
    rw [hunset]
    cases he : t.pyLe _UNIX_EPOCH <;> simp [exErr, he]
  · unfold CertificateBuilder.not_valid_after
    rw [hunset]
    cases he : t.pyLe _UNIX_EPOCH <;> simp [exErr, he]
  · intro α i s k n ex t1 t2 b1 b2 pk alg backend he1 he2 hrev hok1 hok2
    rw [not_valid_before_ok_shape _ t1 b1 hok1] at hok2
    rw [not_valid_after_ok_shape _ t2 b2 hok2]
    refine ⟨rfl, rfl, rfl⟩

/-- C6 witness. -/
theorem C6_validity_epoch_witness :
    exErr (CertificateBuilder.empty.not_valid_before ⟨1970, 1, 1, 0, 0, 0, 0⟩) = true ∧
    exErr (CertificateBuilder.empty.not_valid_after ⟨1969, 12, 31, 0, 0, 0, 0⟩) = true ∧
    ((CertificateBuilder.mk Version.v3 (some ⟨["ca"]⟩) (some ⟨["leaf"]⟩)
      (some (.rsaKey [true])) (some 7) none none []).not_valid_before
        ⟨1992, 1, 1, 0, 0, 0, 0⟩ = .ok
      ⟨Version.v3, some ⟨["ca"]⟩, some ⟨["leaf"]⟩, some (.rsaKey [true]), some 7,
        some ⟨1992, 1, 1, 0, 0, 0, 0⟩, none, []⟩) ∧
    exOk ((CertificateBuilder.mk Version.v3 (some ⟨["ca"]⟩) (some ⟨["leaf"]⟩)
      (some (.rsaKey [true])) (some 7) (some ⟨1992, 1, 1, 0, 0, 0, 0⟩)
      (some ⟨1991, 1, 1, 0, 0, 0, 0⟩) []).sign ⟨0⟩ ⟨"sha256"⟩
        (fun _ _ _ => (0 : Nat))) = true := by
  have h0 := C6_validity_epoch CertificateBuilder.empty ⟨1970, 1, 1, 0, 0, 0, 0⟩
  have h1 := C6_validity_epoch CertificateBuilder.empty ⟨1969, 12, 31, 0, 0, 0, 0⟩
  have h2 := (C6_validity_epoch CertificateBuilder.empty ⟨1992, 1, 1, 0, 0, 0, 0⟩).2.2
    Nat ⟨["ca"]⟩ ⟨["leaf"]⟩ (.rsaKey [true]) 7 [] ⟨1992, 1, 1, 0, 0, 0, 0⟩
    ⟨1991, 1, 1, 0, 0, 0, 0⟩
    ⟨Version.v3, some ⟨["ca"]⟩, some ⟨["leaf"]⟩, some (.rsaKey [true]), some 7,
      some ⟨1992, 1, 1, 0, 0, 0, 0⟩, none, []⟩
    ⟨Version.v3, some ⟨["ca"]⟩, some ⟨["leaf"]⟩, some (.rsaKey [true]), some 7,
      some ⟨1992, 1, 1, 0, 0, 0, 0⟩, some ⟨1991, 1, 1, 0, 0, 0, 0⟩, []⟩
    ⟨0⟩ ⟨"sha256"⟩ (fun _ _ _ => (0 : Nat))
    (by decide) (by decide) (by decide) rfl rfl
  exact ⟨(h0.1 rfl).mpr (by decide), (h1.2.1 rfl).mpr (by decide), rfl, h2.2.2⟩

/-- C7 (corrected): DistributionPoint construction characterization. -/
theorem C7_distribution_point (full_name : Option (List GeneralName))
    (relative_name : Option Name) (reasons : Option (List ReasonFlags))
    (crl_issuer : Option (List GeneralName)) :
    exErr (mkDistributionPoint full_name relative_name reasons crl_issuer) =
      ((truthyGNList full_name && relative_name.isSome) ||
       (truthyReasons reasons &&
         (reasonsContains reasons .unspecified ||
          reasonsContains reasons .remove_from_crl)) ||
       (truthyReasons reasons && !truthyGNList crl_issuer &&
         !(truthyGNList full_name || relative_name.isSome))) ∧
    (exErr (mkDistributionPoint full_name relative_name reasons crl_issuer) = false →
      mkDistributionPoint full_name relative_name reasons crl_issuer =
        .ok ⟨full_name, relative_name, reasons, crl_issuer⟩) := by
  constructor
  · cases h1 : (truthyGNList full_name && relative_name.isSome) <;>
      cases h2 : (truthyReasons reasons &&
        (reasonsContains reasons .unspecified ||
         reasonsContains reasons .remove_from_crl)) <;>
      cases h3 : (truthyReasons reasons && !truthyGNList crl_issuer &&
        !(truthyGNList full_name || relative_name.isSome)) <;>
      (simp only [mkDistributionPoint, h1, h2, h3]) <;> simp [exErr]
  · intro hok
    cases h1 : (truthyGNList full_name && relative_name.isSome) <;>
      cases h2 : (truthyReasons reasons &&
        (reasonsContains reasons .unspecified ||
         reasonsContains reasons .remove_from_crl)) <;>
      cases h3 : (truthyReasons reasons && !truthyGNList crl_issuer &&
        !(truthyGNList full_name || relative_name.isSome)) <;>
      (simp only [mkDistributionPoint, h1, h2, h3] at hok ⊢) <;> simp_all [exErr]

/-- C7 counterexample: an empty supplied reasons set passes construction. -/
theorem C7_distribution_point_counterexample :
    exOk (mkDistributionPoint none none (some []) none) = true := by
  decide

/-- C7 witness. -/
theorem C7_distribution_point_witness :
    exErr (mkDistributionPoint none none (some [ReasonFlags.unspecified])
      (some [GeneralName.DNSName "a"])) = true ∧
    exErr (mkDistributionPoint none none (some [ReasonFlags.key_compromise]) none) = true ∧
    mkDistributionPoint none none (some [ReasonFlags.key_compromise])
      (some [GeneralName.DNSName "a"]) =
      .ok ⟨none, none, some [ReasonFlags.key_compromise],
        some [GeneralName.DNSName "a"]⟩ := by
  have h1 := C7_distribution_point none none (some [ReasonFlags.unspecified])
    (some [GeneralName.DNSName "a"])
  have h2 := C7_distribution_point none none (some [ReasonFlags.key_compromise]) none
  have h3 := C7_distribution_point none none (some [ReasonFlags.key_compromise])
    (some [GeneralName.DNSName "a"])
  refine ⟨?_, ?_, ?_⟩
  · rw [h1.1]; decide
  · rw [h2.1]; decide
  · exact h3.2 (by rw [h3.1]; decide)

/-- C8: every setter returns a new builder with only its own field changed. -/
theorem C8_setters_pure (b : CertificateBuilder)
    (csr : CertificateSigningRequestBuilder) (nm : Name) (k : PublicKey)
    (n : Int) (t : PyDatetime) (ext : ExtensionType) (c : Bool) :
    (b._issuer_name = none → b.issuer_name nm = .ok ⟨Version.v3, some nm,
      b._subject_name, b._public_key, b._serial_number, b._not_valid_before,
      b._not_valid_after, b._extensions⟩) ∧
    (b._subject_name = none → b.subject_name nm = .ok ⟨Version.v3,
      b._issuer_name, some nm, b._public_key, b._serial_number,
      b._not_valid_before, b._not_valid_after, b._extensions⟩) ∧
    (b._public_key = none → b.public_key k = .ok ⟨Version.v3, b._issuer_name,
      b._subject_name, some k, b._serial_number, b._not_valid_before,
      b._not_valid_after, b._extensions⟩) ∧
    (b._serial_number = none → 0 ≤ n → n < 2 ^ 160 →
      b.serial_number n = .ok ⟨Version.v3, b._issuer_name, b._subject_name,
        b._public_key, some n, b._not_valid_before, b._not_valid_after,
        b._extensions⟩) ∧
    (b._not_valid_before = none → t.pyLe _UNIX_EPOCH = false →
      b.not_valid_before t = .ok ⟨Version.v3, b._issuer_name, b._subject_name,
        b._public_key, b._serial_number, some t, b._not_valid_after,
        b._extensions⟩) ∧
    (b._not_valid_after = none → t.pyLe _UNIX_EPOCH = false →
      b.not_valid_after t = .ok ⟨Version.v3, b._issuer_name, b._subject_name,
        b._public_key, b._serial_number, b._not_valid_before, some t,
        b._extensions⟩) ∧
    ((∀ e ∈ b._extensions, e.oid ≠ ext.oid) →
      b.add_extension ext c = .ok ⟨Version.v3, b._issuer_name, b._subject_name,
        b._public_key, b._serial_number, b._not_valid_before, b._not_valid_after,
        b._extensions ++ [⟨ext.oid, c, ext⟩]⟩) ∧
    (csr._subject_name = none → csr.subject_name nm =
      .ok ⟨some nm, csr._extensions⟩) ∧
    ((∀ e ∈ csr._extensions, e.oid ≠ ext.oid) →
      csr.add_extension ext c = .ok ⟨csr._subject_name,
        csr._extensions ++ [⟨ext.oid, c, ext⟩]⟩) ∧
    (∀ (n2 : Int) (b1 b2 b1' : CertificateBuilder),
      b.serial_number n = .ok b1 → b.serial_number n2 = .ok b2 →
      b1.issuer_name nm = .ok b1' →
      b2._serial_number = some n2 ∧ b2._issuer_name = b._issuer_name ∧
      b1'._serial_number = some n ∧ b1'._issuer_name = some nm) := by
  refine ⟨?_, ?_, ?_, ?_, ?_, ?_, ?_, ?_, ?_, ?_⟩
  · intro h
    unfold CertificateBuilder.issuer_name
    rw [h]
    rfl
  · intro h
    unfold CertificateBuilder.subject_name
    rw [h]
    rfl
  · intro h
    unfold CertificateBuilder.public_key
    rw [h]
    rfl
  · exact serial_number_ok b n
  · intro h he
    unfold CertificateBuilder.not_valid_before
    rw [h, he]
    rfl
  · intro h he
    unfold CertificateBuilder.not_valid_after
    rw [h, he]
    rfl
  · intro hfresh
    have hguard : (b._extensions.any (fun e => e.oid == ext.oid)) = false := by
      simp only [List.any_eq_false, beq_iff_eq]
      intro e he
      exact hfresh e he
    simp [CertificateBuilder.add_extension, hguard]
  · intro h
    unfold CertificateSigningRequestBuilder.subject_name
    rw [h]
    rfl
  · intro hfresh
    have hguard : (csr._extensions.any (fun e => e.oid == ext.oid)) = false := by
      simp only [List.any_eq_false, beq_iff_eq]
      intro e he
      exact hfresh e he
    simp [CertificateSigningRequestBuilder.add_extension, hguard]
  · intro n2 b1 b2 b1' h1 h2 h3
    rw [serial_number_ok_shape b n b1 h1] at h3
    rw [serial_number_ok_shape b n2 b2 h2]
    rw [issuer_name_ok_shape _ nm b1' h3]
    exact ⟨rfl, rfl, rfl, rfl⟩

/-- C8 witness. -/
theorem C8_setters_pure_witness :
    CertificateBuilder.empty.serial_number 5 =
      .ok ⟨Version.v3, none, none, none, some 5, none, none, []⟩ ∧
    CertificateBuilder.empty.serial_number 6 =
      .ok ⟨Version.v3, none, none, none, some 6, none, none, []⟩ ∧
    (CertificateBuilder.mk Version.v3 none none none (some 5) none none
      []).issuer_name ⟨["ca"]⟩ =
      .ok ⟨Version.v3, some ⟨["ca"]⟩, none, none, some 5, none, none, []⟩ ∧
    ((CertificateBuilder.mk Version.v3 none none none (some 6) none none
      [])._serial_number = some 6 ∧
     (CertificateBuilder.mk Version.v3 none none none (some 6) none none
      [])._issuer_name = CertificateBuilder.empty._issuer_name ∧
     (CertificateBuilder.mk Version.v3 (some ⟨["ca"]⟩) none none (some 5) none
      none [])._serial_number = some 5 ∧
     (CertificateBuilder.mk Version.v3 (some ⟨["ca"]⟩) none none (some 5) none
      none [])._issuer_name = some ⟨["ca"]⟩) := by
  have h := C8_setters_pure CertificateBuilder.empty
    CertificateSigningRequestBuilder.empty ⟨["ca"]⟩ (.rsaKey [true]) 5
    ⟨1992, 1, 1, 0, 0, 0, 0⟩ .ocspNoCheck true
  have h5 : CertificateBuilder.empty.serial_number 5 =
      .ok ⟨Version.v3, none, none, none, some 5, none, none, []⟩ :=
    h.2.2.2.1 rfl (by norm_num) (by norm_num)
  have h6 : CertificateBuilder.empty.serial_number 6 =
      .ok ⟨Version.v3, none, none, none, some 6, none, none, []⟩ :=
    (C8_setters_pure CertificateBuilder.empty
      CertificateSigningRequestBuilder.empty ⟨["ca"]⟩ (.rsaKey [true]) 6
      ⟨1992, 1, 1, 0, 0, 0, 0⟩ .ocspNoCheck true).2.2.2.1 rfl
      (by norm_num) (by norm_num)
  have hiss : (CertificateBuilder.mk Version.v3 none none none (some 5) none
      none []).issuer_name ⟨["ca"]⟩ =
      .ok ⟨Version.v3, some ⟨["ca"]⟩, none, none, some 5, none, none, []⟩ :=
    (C8_setters_pure (CertificateBuilder.mk Version.v3 none none none (some 5)
      none none []) CertificateSigningRequestBuilder.empty ⟨["ca"]⟩
      (.rsaKey [true]) 5 ⟨1992, 1, 1, 0, 0, 0, 0⟩ .ocspNoCheck true).1 rfl
  have hind := h.2.2.2.2.2.2.2.2.2 6
    ⟨Version.v3, none, none, none, some 5, none, none, []⟩
    ⟨Version.v3, none, none, none, some 6, none, none, []⟩
    ⟨Version.v3, some ⟨["ca"]⟩, none, none, some 5, none, none, []⟩
    h5 h6 hiss
  exact ⟨h5, h6, hiss, hind⟩

/-- C9 (corrected): only seven of the nine tagged kinds are representable. -/
theorem C9_general_name_kinds (g : GeneralName) :
    ((g.tag, g.tagName) ∈ _GENERAL_NAMES) ∧ g.tag ≠ 3 ∧ g.tag ≠ 5 := by
  cases g <;> refine ⟨?_, ?_, ?_⟩ <;>
    simp [GeneralName.tag, GeneralName.tagName, _GENERAL_NAMES]

/-- C9 counterexample: no GeneralName value carries the x400Address (3) or
ediPartyName (5) tags, although both appear in _GENERAL_NAMES. -/
theorem C9_general_name_kinds_counterexample :
    (¬ ∃ g : GeneralName, g.tag = 3) ∧ (¬ ∃ g : GeneralName, g.tag = 5) ∧
    (3, "x400Address") ∈ _GENERAL_NAMES ∧ (5, "ediPartyName") ∈ _GENERAL_NAMES := by
  refine ⟨?_, ?_, by decide, by decide⟩
  · rintro ⟨g, hg⟩
    cases g <;> simp [GeneralName.tag] at hg
  · rintro ⟨g, hg⟩
    cases g <;> simp [GeneralName.tag] at hg

/-- C9 witness. -/
theorem C9_general_name_kinds_witness :
    ((GeneralName.DNSName "example").tag,
      (GeneralName.DNSName "example").tagName) ∈ _GENERAL_NAMES ∧
    (GeneralName.DNSName "example").tag ≠ 3 := by
  have h := C9_general_name_kinds (GeneralName.DNSName "example")
  exact ⟨h.1, h.2.1⟩

/-- C10: KeyUsage constructor invariant. -/
theorem C10_key_usage_invariant (digital_signature content_commitment
    key_encipherment data_encipherment key_agreement key_cert_sign crl_sign
    encipher_only decipher_only : Bool) :
    (exErr (mkKeyUsage digital_signature content_commitment key_encipherment
        data_encipherment key_agreement key_cert_sign crl_sign encipher_only
        decipher_only) =
      (!key_agreement && (encipher_only || decipher_only))) ∧
    (∀ ku : KeyUsage,
      mkKeyUsage digital_signature content_commitment key_encipherment
        data_encipherment key_agreement key_cert_sign crl_sign encipher_only
        decipher_only = .ok ku →
      ku._key_agreement = key_agreement ∧ ku._encipher_only = encipher_only ∧
      ku._decipher_only = decipher_only ∧
      (ku._key_agreement = false →
        ku._encipher_only = false ∧ ku._decipher_only = false)) := by
  constructor
  · cases hg : (!key_agreement && (encipher_only || decipher_only)) <;>
      simp only [mkKeyUsage, hg] <;> simp [exErr]
  · intro ku hok
    unfold mkKeyUsage at hok
    split at hok
    · exact absurd hok (by simp)
    rename_i hg
    have hku : ku = ⟨digital_signature, content_commitment, key_encipherment,
        data_encipherment, key_agreement, key_cert_sign, crl_sign,
        encipher_only, decipher_only⟩ :=
      ((Except.ok.injEq _ _).mp hok).symm
    subst hku
    refine ⟨rfl, rfl, rfl, fun hka => ?_⟩
    simp only at hka
    rw [hka] at hg
    cases encipher_only <;> cases decipher_only <;> simp_all

/-- C10 witness. -/
theorem C10_key_usage_invariant_witness :
    exErr (mkKeyUsage false false false false false false false true false) = true ∧
    (KeyUsage.mk false false false false true false false true true)._key_agreement = true := by
  have h1 := (C10_key_usage_invariant false false false false false false false
    true false).1
  have h2 := (C10_key_usage_invariant false false false false true false false
    true true).2
    ⟨false, false, false, false, true, false, false, true, true⟩ rfl
  exact ⟨h1.trans rfl, h2.1⟩
